import Mathlib

/-!
Verification of the artifact decoding, polling and download-routing
subsystem of a client for a remote document-synthesis service.

The wire format is a schema-less nested positional array.  We embed such
values as the inductive `Value` and translate the decoder, lister, share
and download-routing operations over it.  The library module holding the
implementation (`notebooklm/_artifacts.py`) is not part of the sources
available here, only its unit tests and example callers; every operation
below is therefore modelled from the specification, with the unit tests
(`tests/unit/test_artifact_downloads.py`) pinning the concrete behavior
(exact raw shapes, error messages, RPC parameter lists).
-/

namespace NotebookLM

/-- A nested positional-array RPC value: null, string, integer or array. -/
inductive Value where
  | null : Value
  | str : String → Value
  | int : Int → Value
  | arr : List Value → Value

/-- Index into an array value; out-of-range and non-array give `null`
(absent trailing fields are treated as not yet populated). -/
def Value.getIdx : Value → Nat → Value
  | .arr xs, n => xs.getD n .null
  | _, _ => .null

/-- The string carried by a string value, if any. -/
def Value.asString? : Value → Option String
  | .str s => some s
  | _ => none

/-- The integer carried by an integer value, if any. -/
def Value.asInt? : Value → Option Int
  | .int n => some n
  | _ => none

/-- The element list of an array value, defaulting to `[]`. -/
def Value.asArrD : Value → List Value
  | .arr xs => xs
  | _ => []

/-- Whether the value is a string. -/
def Value.isStr : Value → Bool
  | .str _ => true
  | _ => false

/-- Whether the value is the integer `n`. -/
def Value.isIntVal : Value → Int → Bool
  | .int m, n => m == n
  | _, _ => false

/-- Artifact kinds carried as an integer tag at index 2 of a raw record
(`AUDIO=1, VIDEO=3, INFOGRAPHIC=7, SLIDE_DECK=8`). -/
inductive ArtifactKind where
  | audio | video | infographic | slideDeck
deriving DecidableEq

/-- The integer tag of a kind. -/
def kindTag : ArtifactKind → Int
  | .audio => 1
  | .video => 3
  | .infographic => 7
  | .slideDeck => 8

/-- Recognize a kind tag. -/
def kindOfTag : Int → Option ArtifactKind
  | 1 => some .audio
  | 3 => some .video
  | 7 => some .infographic
  | 8 => some .slideDeck
  | _ => none

/-- Artifact status: only `COMPLETED` (raw integer 3) versus "not
completed" is load-bearing; every other raw value means not yet ready. -/
inductive ArtifactStatus where
  | completed | notCompleted
deriving DecidableEq

/-- Status from the raw field at index 4: integer 3 is COMPLETED and
anything else is not completed. -/
def statusOfValue (v : Value) : ArtifactStatus :=
  if v.isIntVal 3 then .completed else .notCompleted

/-- One downloadable media entry of an artifact. -/
structure MediaRef where
  url : String
  variant_code : Option Int
  mime_type : Option String

/-- A decoded artifact record. -/
structure Artifact where
  id : String
  title : Option String
  kind : ArtifactKind
  status : ArtifactStatus
  media : List MediaRef

/-- Whether the artifact reached the COMPLETED status. -/
def Artifact.isCompleted (a : Artifact) : Bool :=
  match a.status with
  | .completed => true
  | .notCompleted => false

/-- Index of the metadata container of each kind
(AUDIO at 6, VIDEO at 8, INFOGRAPHIC and SLIDE_DECK at 9). -/
def metadataIndex : ArtifactKind → Nat
  | .audio => 6
  | .video => 8
  | .infographic => 9
  | .slideDeck => 9

/-- Where the media entries sit inside the metadata container: element 5
for AUDIO, the first element for VIDEO, the third element for
INFOGRAPHIC, and (modelled from the spec: the SLIDE_DECK walk is
documented only as an analogous nested-list walk) the third element for
SLIDE_DECK. -/
def mediaItemsOf : ArtifactKind → List Value → Value
  | .audio, ms => ms.getD 5 .null
  | .video, ms => ms.getD 0 .null
  | .infographic, ms => ms.getD 2 .null
  | .slideDeck, ms => ms.getD 2 .null

/-- Lower-case noun used in error messages for a kind. -/
def kindNoun : ArtifactKind → String
  | .audio => "audio"
  | .video => "video"
  | .infographic => "infographic"
  | .slideDeck => "slide deck"

/-- Capitalized label used in not-found error messages for a kind. -/
def kindLabel : ArtifactKind → String
  | .audio => "Audio"
  | .video => "Video"
  | .infographic => "Infographic"
  | .slideDeck => "Slide deck"

/-- Decode one `[url, variant_code, mime]` media triple (AUDIO/VIDEO). -/
def decodeMediaTriple : Value → Except String MediaRef
  | .arr (u :: rest) =>
    match u.asString? with
    | some url => .ok ⟨url, (rest.getD 0 .null).asInt?, (rest.getD 1 .null).asString?⟩
    | none => .error "Failed to parse media entry"
  | _ => .error "Failed to parse media entry"

/-- Decode one INFOGRAPHIC/SLIDE_DECK entry: the entry's second field is
a one-element sequence holding the url. -/
def decodeInfoEntry : Value → Except String MediaRef
  | .arr es =>
    match es.getD 1 .null with
    | .arr [.str url] => .ok ⟨url, none, none⟩
    | _ => .error "Failed to parse media entry"
  | _ => .error "Failed to parse media entry"

/-- Decode one media entry according to the artifact kind. -/
def decodeEntry : ArtifactKind → Value → Except String MediaRef
  | .audio, v => decodeMediaTriple v
  | .video, v => decodeMediaTriple v
  | .infographic, v => decodeInfoEntry v
  | .slideDeck, v => decodeInfoEntry v

/-- Decode a list of media entries, failing on the first malformed one. -/
def decodeEntries (k : ArtifactKind) : List Value → Except String (List MediaRef)
  | [] => .ok []
  | v :: vs =>
    match decodeEntry k v with
    | .error e => .error e
    | .ok m =>
      match decodeEntries k vs with
      | .error e => .error e
      | .ok ms => .ok (m :: ms)

/-- Error message for a wrong-typed metadata container of a kind. -/
def invalidMetadataMsg (k : ArtifactKind) : String :=
  "Invalid " ++ kindNoun k ++ " metadata"

/-- Decode the media list of a completed artifact from its metadata
container.  `null`/absent containers and media slots are tolerated (not
yet populated, media empty); wrong-typed ones are a hard decode error. -/
def decodeMedia (k : ArtifactKind) (mv : Value) : Except String (List MediaRef) :=
  match mv with
  | .null => .ok []
  | .arr ms =>
    match mediaItemsOf k ms with
    | .null => .ok []
    | .arr ts => decodeEntries k ts
    | _ => .error (invalidMetadataMsg k)
  | _ => .error (invalidMetadataMsg k)

/-- Modelled from the spec: `decode(raw) -> Artifact` of §4.1
(implementation module absent from the sources).  Dispatches on the kind
tag at index 2; id at index 0, title at index 1, status at index 4; the
media of a completed artifact are decoded from the kind's metadata
container, a non-completed artifact decodes with empty media. -/
def decodeArtifact (raw : Value) : Except String Artifact :=
  match raw with
  | .arr fields =>
    match (fields.getD 0 .null).asString?, (fields.getD 2 .null).asInt? with
    | some id, some tag =>
      match kindOfTag tag with
      | some k =>
        match statusOfValue (fields.getD 4 .null) with
        | .completed =>
          match decodeMedia k (fields.getD (metadataIndex k) .null) with
          | .ok media => .ok ⟨id, (fields.getD 1 .null).asString?, k, .completed, media⟩
          | .error e => .error e
        | .notCompleted =>
          .ok ⟨id, (fields.getD 1 .null).asString?, k, .notCompleted, []⟩
      | none => .error "Unknown artifact type"
    | _, _ => .error "Invalid artifact record"
  | _ => .error "Invalid artifact record"

/-- Errors of the facade operations: the spec's `DecodeError` and
`NotFoundError` taxonomy (both surfaced as `ValueError` by the
implementation, carrying the messages asserted by the unit tests). -/
inductive ArtifactError where
  | decodeError : String → ArtifactError
  | notFound : String → ArtifactError

/-- Whether a raw element carries the kind tag `k` at index 2. -/
def rawHasTag (k : ArtifactKind) (r : Value) : Bool :=
  (r.getIdx 2).isIntVal (kindTag k)

/-- Modelled from the spec: the Artifact Lister of §4.2 (implementation
module absent from the sources).  Decodes every raw element whose kind
tag matches, silently skips tag mismatches (mixed-kind lists are
normal), and propagates a decode failure of a matching element. -/
def decodeListed (k : ArtifactKind) : List Value → Except String (List Artifact)
  | [] => .ok []
  | r :: rs =>
    if rawHasTag k r then
      match decodeArtifact r with
      | .error e => .error e
      | .ok a =>
        match decodeListed k rs with
        | .error e => .error e
        | .ok as => .ok (a :: as)
    else decodeListed k rs

/-- Modelled from the spec: `find(notebook_id, kind, artifact_id?)` of
§4.2 (implementation module absent from the sources).  With an explicit
id, exact match among completed artifacts of the kind is required, else
a not-found error naming the requested id; with the id omitted, the
first completed artifact of the kind in list order, else a not-found
error.  Error messages are the ones the unit tests assert. -/
def findArtifact (k : ArtifactKind) (aid : Option String) (raws : List Value) :
    Except ArtifactError Artifact :=
  match decodeListed k raws with
  | .error e => .error (.decodeError e)
  | .ok arts =>
    let completed := arts.filter Artifact.isCompleted
    match aid with
    | some x =>
      match completed.find? (fun a => a.id == x) with
      | some a => .ok a
      | none => .error (.notFound (kindLabel k ++ " artifact " ++ x ++ " not found"))
    | none =>
      match completed.head? with
      | some a => .ok a
      | none => .error (.notFound ("No completed " ++ kindNoun k ++ " found"))

/-- Modelled from the spec: the pure part of `download_<kind>` — resolve
the artifact from the raw list-RPC response (whose first element is the
list of raw records) and select its first media entry's url; the actual
byte transfer is the external fetch capability. -/
def downloadUrlOfKind (k : ArtifactKind) (resp : Value) (aid : Option String) :
    Except ArtifactError String :=
  match findArtifact k aid (resp.getIdx 0).asArrD with
  | .error e => .error e
  | .ok a =>
    match a.media.head? with
    | some m => .ok m.url
    | none => .error (.decodeError ("No media for " ++ kindNoun k ++ " artifact " ++ a.id))

/-- URL resolution of `download_audio(notebook_id, path, artifact_id?)`. -/
def download_audio (resp : Value) (aid : Option String) : Except ArtifactError String :=
  downloadUrlOfKind .audio resp aid

/-- URL resolution of `download_video(notebook_id, path, artifact_id?)`. -/
def download_video (resp : Value) (aid : Option String) : Except ArtifactError String :=
  downloadUrlOfKind .video resp aid

/-- URL resolution of `download_slide_deck(notebook_id, dir, artifact_id?)`. -/
def download_slide_deck (resp : Value) (aid : Option String) : Except ArtifactError String :=
  downloadUrlOfKind .slideDeck resp aid

/-- One RPC call issued through the transport: a method name and its
positional-array params (the real wire method ids are the transport's
concern; the tests assert only the params). -/
structure RpcCall where
  method : String
  params : Value

/-- Result of the `share` operation. -/
structure ShareResult where
  public : Bool
  artifact_id : Option String
  url : Option String

/-- Params of the share RPC: `[[1], notebook_id, artifact_id]` to make
public, `[[0], notebook_id]` (id omitted) to make private. -/
def shareParams (nb : String) (aid : Option String) (pub : Bool) : Value :=
  .arr ([.arr [.int (if pub then 1 else 0)], .str nb] ++
    (match aid with
     | some a => [Value.str a]
     | none => []))

/-- Modelled from the spec: the public share URL contains the artifact
id when one is attached (the tests assert only that containment). -/
def shareUrlOf (nb : String) (aid : Option String) : String :=
  match aid with
  | some a => "https://notebooklm.google.com/notebook/" ++ nb ++ "?artifactId=" ++ a
  | none => "https://notebooklm.google.com/notebook/" ++ nb

/-- Modelled from the spec: `share(notebook_id, artifact_id?, public)` of
§4.5 — issues exactly one share RPC and returns
`{public, artifact_id, url}`, the url being `none` when not public.
The function returns the result together with the list of RPC calls it
issued. -/
def share (nb : String) (aid : Option String) (pub : Bool) :
    ShareResult × List RpcCall :=
  (⟨pub, aid, if pub then some (shareUrlOf nb aid) else none⟩,
   [⟨"share", shareParams nb aid pub⟩])

/-- First completed artifact of the kind in list order, if any. -/
def firstCompletedOfKind (k : ArtifactKind) (raws : List Value) : Option Artifact :=
  ((raws.filterMap (fun r => (decodeArtifact r).toOption)).filter
    (fun a => a.kind == k && a.isCompleted)).head?

/-- Modelled from the spec and pinned by the unit tests:
`share_<kind>(notebook_id, artifact_id?, public)` — with an explicit id
it delegates straight to `share` (no listing RPC); with the id omitted
it issues the listing RPC, resolves the first completed artifact of the
kind (`none` when there is no such artifact, per
`test_share_video_no_video_found`), and delegates to `share` with that
resolution.  `listResp` is the raw response of the listing RPC. -/
def shareKind (k : ArtifactKind) (listResp : Value) (nb : String)
    (aid : Option String) (pub : Bool) : ShareResult × List RpcCall :=
  match aid with
  | some a => share nb (some a) pub
  | none =>
    let raws := (listResp.getIdx 0).asArrD
    let found := (firstCompletedOfKind k raws).map Artifact.id
    let (res, calls) := share nb found pub
    (res, ⟨"list_artifacts", .arr [.str nb]⟩ :: calls)

/-- `share_audio(notebook_id, artifact_id?, public)`. -/
def share_audio (listResp : Value) (nb : String) (aid : Option String) (pub : Bool) :
    ShareResult × List RpcCall :=
  shareKind .audio listResp nb aid pub

/-- `share_video(notebook_id, artifact_id?, public)`. -/
def share_video (listResp : Value) (nb : String) (aid : Option String) (pub : Bool) :
    ShareResult × List RpcCall :=
  shareKind .video listResp nb aid pub

/-- Strip a literal prefix from a character list, or fail. -/
def stripPrefixChars : List Char → List Char → Option (List Char)
  | [], cs => some cs
  | _ :: _, [] => none
  | p :: ps, c :: cs => if p = c then stripPrefixChars ps cs else none

/-- Host of a URL: strip the scheme, take up to the first slash. -/
def hostOf (url : String) : String :=
  let cs := url.data
  let rest :=
    match stripPrefixChars "https://".data cs with
    | some r => r
    | none =>
      match stripPrefixChars "http://".data cs with
      | some r => r
      | none => cs
  String.mk (rest.takeWhile (fun c => c != '/'))

/-- Modelled from the spec: the fixed allow-list of content-domain
classes known to require a live authenticated session (content and
user-content subdomains of the service's asset hosts). -/
def contentDomains : List String :=
  ["googleusercontent.com", "usercontent.google.com"]

/-- Whether one string ends with another. -/
def strEndsWith (s suffix : String) : Bool :=
  List.isSuffixOf suffix.data s.data

/-- Whether a host is one of the content domains or a subdomain of one. -/
def isContentHost (host : String) : Bool :=
  contentDomains.any (fun d => host == d || strEndsWith host ("." ++ d))

/-- Modelled from the spec: `needs_authenticated_fetch(url)`
(`_needs_browser_download` in the implementation, absent from the
sources) — true iff the URL's host belongs to the fixed allow-list of
content domains; a pure classification of the host. -/
def needs_browser_download (url : String) : Bool :=
  isContentHost (hostOf url)

/-- Result of a mind-map generation call. -/
structure MindMapResult where
  mind_map : Option Value
  note_id : Option String

/-- Modelled from the spec: decoding of the mind-map RPC response.  A
`null`/absent response yields `{mind_map := none, note_id := none}` as a
success.  Otherwise the first element of the response is
`[payload, _, note_info]`: a string payload is parsed as nested data by
the ambient parser `parse`, an already-structured payload is kept as-is,
and `note_id` is the first element of `note_info` when present. -/
def decodeMindMapResponse (parse : String → Option Value) (resp : Value) :
    MindMapResult :=
  match resp with
  | .null => ⟨none, none⟩
  | _ =>
    let inner := resp.getIdx 0
    let mm : Option Value :=
      match inner.getIdx 0 with
      | .null => none
      | .str s => parse s
      | v => some v
    ⟨mm, ((inner.getIdx 2).getIdx 0).asString?⟩

/-- Modelled from the spec: the backoff growth factor is a fixed
multiplier of 1.5×. -/
def growthFactor : ℚ := 3 / 2

/-- One backoff step of the poller:
`interval = min(interval * growth_factor, max_interval)`. -/
def nextInterval (maxInterval i : ℚ) : ℚ :=
  min (i * growthFactor) maxInterval

/-- The interval used before the n-th suspension of the poll loop,
starting from `initial_interval`. -/
def intervalSeq (maxInterval i0 : ℚ) : Nat → ℚ
  | 0 => i0
  | n + 1 => nextInterval maxInterval (intervalSeq maxInterval i0 n)

/-- Status observed by one poll attempt. -/
inductive PollStatus where
  | pending | processing | completed | failed : String → PollStatus

/-- Terminal outcome of the wait loop: completion, a server-reported
failure, or the caller's timeout budget being exhausted. -/
inductive WaitOutcome where
  | completed | failed : String → WaitOutcome
  | timedOut

/-- Modelled from the spec: the wait loop of
`wait_for_completion(notebook_id, task_id, initial_interval,
max_interval, timeout)` (§4.3).  `status n` is the status the n-th poll
observes, `elapsed` the wall time consumed so far and `interval` the
current backoff interval; the loop returns a terminal outcome on
COMPLETED or FAILED, suspends for `interval` otherwise, and fails with
the timeout outcome once `elapsed` reaches `timeout`.  `fuel` bounds the
recursion. -/
def wait_for_completion (status : Nat → PollStatus) (maxInterval timeout : ℚ) :
    Nat → Nat → ℚ → ℚ → WaitOutcome
  | 0, _, _, _ => .timedOut
  | fuel + 1, n, elapsed, interval =>
    if timeout ≤ elapsed then .timedOut
    else
      match status n with
      | .completed => .completed
      | .failed m => .failed m
      | _ =>
        wait_for_completion status maxInterval timeout fuel (n + 1)
          (elapsed + interval) (nextInterval maxInterval interval)

/-- The documented shape of one media entry of a kind: AUDIO/VIDEO
entries are `[url, ?, mime]` triples with a string url; INFOGRAPHIC and
SLIDE_DECK entries have a one-element url sequence as second field. -/
def wellFormedEntry (k : ArtifactKind) (v : Value) : Bool :=
  match k, v with
  | .audio, .arr (u :: _) => u.isStr
  | .video, .arr (u :: _) => u.isStr
  | .infographic, .arr es =>
    (match es.getD 1 .null with
     | .arr [.str _] => true
     | _ => false)
  | .slideDeck, .arr es =>
    (match es.getD 1 .null with
     | .arr [.str _] => true
     | _ => false)
  | _, _ => false

/-- The documented shape of the metadata container of a COMPLETED
artifact of kind `k`: a sequence whose media slot holds a non-empty
sequence of well-formed entries. -/
def wellFormedCompletedMedia (k : ArtifactKind) (mv : Value) : Bool :=
  match mv with
  | .arr ms =>
    (match mediaItemsOf k ms with
     | .arr ts => !ts.isEmpty && ts.all (wellFormedEntry k)
     | _ => false)
  | _ => false

/-- The documented shape of a raw artifact array of kind `k`: a sequence
with a string id at index 0, the kind tag at index 2 and an integer
status at index 4; when the status is COMPLETED the kind's metadata
container is well-formed with non-empty media, and otherwise the
trailing fields are unconstrained (they may be absent). -/
def wellFormedRaw (k : ArtifactKind) (raw : Value) : Bool :=
  match raw with
  | .arr fields =>
    (fields.getD 0 .null).isStr &&
    (fields.getD 2 .null).isIntVal (kindTag k) &&
    (fields.getD 4 .null).asInt?.isSome &&
    (if (fields.getD 4 .null).isIntVal 3
     then wellFormedCompletedMedia k (fields.getD (metadataIndex k) .null)
     else true)
  | _ => false

/-- The tag of a kind is recognized back as that kind. -/
theorem kindOfTag_kindTag (k : ArtifactKind) : kindOfTag (kindTag k) = some k := by
  cases k <;> rfl

/-- A well-formed media entry decodes successfully. -/
theorem decodeEntry_ok_of_wf (k : ArtifactKind) (v : Value)
    (h : wellFormedEntry k v = true) : ∃ m, decodeEntry k v = .ok m := by
  cases k with
  | audio | video =>
    rcases v with _ | s | n | xs
    · simp [wellFormedEntry] at h
    · simp [wellFormedEntry] at h
    · simp [wellFormedEntry] at h
    · rcases xs with _ | ⟨u, rest⟩
      · simp [wellFormedEntry] at h
      · rcases u with _ | s | n | ys <;> simp [wellFormedEntry, Value.isStr] at h
        exact ⟨_, rfl⟩
  | infographic | slideDeck =>
    rcases v with _ | s | n | es
    · simp [wellFormedEntry] at h
    · simp [wellFormedEntry] at h
    · simp [wellFormedEntry] at h
    · simp only [wellFormedEntry] at h
      rcases hes : es.getD 1 .null with _ | s | n | ys
      · rw [hes] at h; simp at h
      · rw [hes] at h; simp at h
      · rw [hes] at h; simp at h
      · rw [hes] at h
        rcases ys with _ | ⟨y, ytail⟩
        · simp at h
        · rcases y with _ | s | n | zs
          · simp at h
          · rcases ytail with _ | _
            · refine ⟨⟨s, none, none⟩, ?_⟩
              show decodeInfoEntry (.arr es) = _
              have hred : decodeInfoEntry (.arr es) =
                  (match es.getD 1 Value.null with
                   | Value.arr [Value.str url] => Except.ok ⟨url, none, none⟩
                   | _ => Except.error "Failed to parse media entry") := rfl
              rw [hred, hes]
            · simp at h
          · simp at h
          · simp at h

/-- A list of well-formed media entries decodes to a media list of the
same length. -/
theorem decodeEntries_ok_of_wf (k : ArtifactKind) (ts : List Value)
    (h : ts.all (wellFormedEntry k) = true) :
    ∃ l, decodeEntries k ts = .ok l ∧ l.length = ts.length := by
  induction ts with
  | nil => exact ⟨[], rfl, rfl⟩
  | cons t ts ih =>
    rw [List.all_cons, Bool.and_eq_true] at h
    obtain ⟨m, hm⟩ := decodeEntry_ok_of_wf k t h.1
    obtain ⟨l, hl, hlen⟩ := ih h.2
    refine ⟨m :: l, ?_, by simp [hlen]⟩
    simp only [decodeEntries]
    rw [hm, hl]

/-- A well-formed completed metadata container decodes to a non-empty
media list. -/
theorem decodeMedia_ok_of_wf (k : ArtifactKind) (mv : Value)
    (h : wellFormedCompletedMedia k mv = true) :
    ∃ l, decodeMedia k mv = .ok l ∧ l ≠ [] := by
  rcases mv with _ | s | n | ms
  · simp [wellFormedCompletedMedia] at h
  · simp [wellFormedCompletedMedia] at h
  · simp [wellFormedCompletedMedia] at h
  · simp only [wellFormedCompletedMedia] at h
    rcases hmi : mediaItemsOf k ms with _ | s | n | ts
    · rw [hmi] at h; simp at h
    · rw [hmi] at h; simp at h
    · rw [hmi] at h; simp at h
    · rw [hmi] at h
      rw [Bool.and_eq_true] at h
      obtain ⟨l, hl, hlen⟩ := decodeEntries_ok_of_wf k ts h.2
      refine ⟨l, ?_, ?_⟩
      · have hred : decodeMedia k (.arr ms) =
            (match mediaItemsOf k ms with
             | .null => Except.ok []
             | .arr ts => decodeEntries k ts
             | _ => Except.error (invalidMetadataMsg k)) := rfl
        rw [hred, hmi]
        exact hl
      · have hne : ts ≠ [] := by
          intro hc
          rw [hc] at h
          simp at h
        intro hc
        rw [hc] at hlen
        exact hne (List.length_eq_zero.mp hlen.symm)

/-- A string value yields its string. -/
theorem asString?_of_isStr (v : Value) (h : v.isStr = true) :
    ∃ s, v.asString? = some s ∧ v = .str s := by
  rcases v with _ | s | n | xs
  · simp [Value.isStr] at h
  · exact ⟨s, rfl, rfl⟩
  · simp [Value.isStr] at h
  · simp [Value.isStr] at h

/-- An `isIntVal n` value is the integer value `n`. -/
theorem eq_int_of_isIntVal (v : Value) (n : Int) (h : v.isIntVal n = true) :
    v = .int n := by
  rcases v with _ | s | m | xs
  · simp [Value.isIntVal] at h
  · simp [Value.isIntVal] at h
  · simp only [Value.isIntVal, beq_iff_eq] at h
    rw [h]
  · simp [Value.isIntVal] at h

/-- C1: every raw artifact array matching a kind's documented shape
decodes successfully to an artifact of that kind whose status reflects
the raw status field and whose media sequence is non-empty exactly when
that status is COMPLETED (non-completed records decode with empty media
even when the trailing metadata fields are absent). -/
theorem claim_C1_decode_invariant (k : ArtifactKind) (raw : Value)
    (h : wellFormedRaw k raw = true) :
    ∃ a : Artifact, decodeArtifact raw = .ok a ∧ a.kind = k ∧
      a.status = statusOfValue (raw.getIdx 4) ∧
      (a.media ≠ [] ↔ a.status = .completed) := by
  rcases raw with _ | s | n | fields
  · simp [wellFormedRaw] at h
  · simp [wellFormedRaw] at h
  · simp [wellFormedRaw] at h
  · simp only [wellFormedRaw, Bool.and_eq_true] at h
    obtain ⟨⟨⟨hid, htag⟩, hst⟩, hmeta⟩ := h
    obtain ⟨id, hids, hidv⟩ := asString?_of_isStr _ hid
    have htagv : fields.getD 2 Value.null = .int (kindTag k) :=
      eq_int_of_isIntVal _ _ htag
    have hred : decodeArtifact (.arr fields) =
        (match (fields.getD 0 .null).asString?, (fields.getD 2 .null).asInt? with
         | some id, some tag =>
           match kindOfTag tag with
           | some k =>
             match statusOfValue (fields.getD 4 .null) with
             | .completed =>
               match decodeMedia k (fields.getD (metadataIndex k) .null) with
               | .ok media =>
                 .ok ⟨id, (fields.getD 1 .null).asString?, k, .completed, media⟩
               | .error e => .error e
             | .notCompleted =>
               .ok ⟨id, (fields.getD 1 .null).asString?, k, .notCompleted, []⟩
           | none => .error "Unknown artifact type"
         | _, _ => .error "Invalid artifact record") := rfl
    rw [hred, hids, htagv]
    have hgi : Value.getIdx (.arr fields) 4 = fields.getD 4 Value.null := rfl
    by_cases hc : (fields.getD 4 Value.null).isIntVal 3 = true
    · rw [hc, if_pos rfl] at hmeta
      obtain ⟨l, hl, hlne⟩ := decodeMedia_ok_of_wf k _ hmeta
      have hstc : statusOfValue (fields.getD 4 Value.null) = .completed := by
        unfold statusOfValue
        rw [hc]
        rfl
      refine ⟨⟨id, (fields.getD 1 .null).asString?, k, .completed, l⟩, ?_, rfl, ?_, ?_⟩
      · simp only [Value.asInt?, kindOfTag_kindTag, hstc, hl]
      · rw [hgi, hstc]
      · simp [hlne]
    · have hcf : (fields.getD 4 Value.null).isIntVal 3 = false :=
        Bool.not_eq_true _ ▸ Bool.of_not_eq_true hc
      have hstc : statusOfValue (fields.getD 4 Value.null) = .notCompleted := by
        unfold statusOfValue
        rw [hcf]
        rfl
      refine ⟨⟨id, (fields.getD 1 .null).asString?, k, .notCompleted, []⟩, ?_, rfl, ?_, ?_⟩
      · simp only [Value.asInt?, kindOfTag_kindTag, hstc]
      · rw [hgi, hstc]
      · simp

/-- The raw completed-audio record of the spec's decode scenario. -/
def sampleAudioRaw : Value :=
  .arr [.str "a1", .str "T", .int 1, .null, .int 3, .null,
    .arr [.null, .null, .null, .null, .null,
      .arr [.arr [.str "http://h/a.mp4", .null, .str "audio/mp4"]]]]

/-- Witness for C1: the invariant at the concrete completed audio
record of the spec's decode scenario. -/
theorem claim_C1_decode_invariant_witness :
    wellFormedRaw .audio sampleAudioRaw = true ∧
    (∃ a : Artifact, decodeArtifact sampleAudioRaw = .ok a ∧ a.kind = .audio ∧
      a.status = statusOfValue (sampleAudioRaw.getIdx 4) ∧
      (a.media ≠ [] ↔ a.status = .completed)) :=
  ⟨rfl, claim_C1_decode_invariant .audio sampleAudioRaw rfl⟩

/-- C6: the raw list
`[["a1","T",1,null,3,null,[null,null,null,null,null,[["http://h/a.mp4",null,"audio/mp4"]]]]]`
decodes to exactly one AUDIO artifact with status COMPLETED and exactly
one MediaRef whose url is http://h/a.mp4, the audio media being read
from the metadata container at index 6, element 5 of which is a
sequence of url/mime triples. -/
theorem claim_C6_audio_decode_scenario :
    decodeListed .audio [sampleAudioRaw] =
      .ok [⟨"a1", some "T", .audio, .completed,
        [⟨"http://h/a.mp4", none, some "audio/mp4"⟩]⟩] := rfl

/-- C4: a completed audio record whose metadata field is the string
not_a_list (a wrong-typed value where a sequence is expected) makes
decode — and hence download_audio — fail with the decode error whose
message is Invalid audio metadata; null or absent trailing elements are
tolerated and decode without error. -/
theorem claim_C4_invalid_audio_metadata :
    decodeArtifact (.arr [.str "audio_001", .str "Audio", .int 1, .null, .int 3, .null,
        .str "not_a_list"]) = .error "Invalid audio metadata" ∧
    download_audio (.arr [.arr [.arr [.str "audio_001", .str "Audio", .int 1, .null,
        .int 3, .null, .str "not_a_list"]]]) none
      = .error (.decodeError "Invalid audio metadata") ∧
    decodeArtifact (.arr [.str "audio_001", .str "Audio", .int 1, .null, .int 3, .null,
        .arr [.null, .null, .null, .null, .null, .null]])
      = .ok ⟨"audio_001", some "Audio", .audio, .completed, []⟩ ∧
    decodeArtifact (.arr [.str "audio_001", .str "Audio", .int 1, .null, .int 3, .null,
        .null])
      = .ok ⟨"audio_001", some "Audio", .audio, .completed, []⟩ :=
  ⟨rfl, rfl, rfl, rfl⟩

/-- C5: share with the id omitted and public false returns
`{public := false, url := none}` and issues exactly one RPC with params
`[[0], notebook_id]`; share with id art_1 and public true issues exactly
one RPC with params `[[1], notebook_id, art_1]` and returns a public
result whose url contains art_1. -/
theorem claim_C5_share_scenarios :
    share "nb_123" none false =
      (⟨false, none, none⟩, [⟨"share", .arr [.arr [.int 0], .str "nb_123"]⟩]) ∧
    (share "nb_123" (some "art_1") true).1.public = true ∧
    (share "nb_123" (some "art_1") true).2 =
      [⟨"share", .arr [.arr [.int 1], .str "nb_123", .str "art_1"]⟩] ∧
    (∃ pre post, (share "nb_123" (some "art_1") true).1.url =
      some (pre ++ "art_1" ++ post)) :=
  ⟨rfl, rfl, rfl,
   ⟨"https://notebooklm.google.com/notebook/nb_123?artifactId=", "", by decide⟩⟩

/-- C7: a null/absent mind-map RPC response decodes to
`{mind_map := none, note_id := none}` as a plain successful result (the
decoder is total, no error is raised); a present response has its
payload dispatched by observed type — a string payload goes through the
nested-data parser, an already-structured payload is kept as-is — and
note_id is the first element of note_info when present. -/
theorem claim_C7_mind_map_decode (parse : String → Option Value)
    (s nid : String) (extra v : List Value) :
    decodeMindMapResponse parse .null = ⟨none, none⟩ ∧
    decodeMindMapResponse parse (.arr [.arr [.str s, .null, .arr (.str nid :: extra)]])
      = ⟨parse s, some nid⟩ ∧
    decodeMindMapResponse parse (.arr [.arr [.arr v, .null, .arr (.str nid :: extra)]])
      = ⟨some (.arr v), some nid⟩ :=
  ⟨rfl, rfl, rfl⟩

/-- Witness for C7 at a concrete parser and concrete response values. -/
theorem claim_C7_mind_map_decode_witness :
    decodeMindMapResponse (fun s => some (.str s)) .null = ⟨none, none⟩ ∧
    decodeMindMapResponse (fun s => some (.str s))
        (.arr [.arr [.str "payload", .null, .arr [.str "note_123"]]])
      = ⟨some (.str "payload"), some "note_123"⟩ ∧
    decodeMindMapResponse (fun s => some (.str s))
        (.arr [.arr [.arr [.int 1], .null, .arr [.str "note_123"]]])
      = ⟨some (.arr [.int 1]), some "note_123"⟩ :=
  claim_C7_mind_map_decode (fun s => some (.str s)) "payload" "note_123" [] [.int 1]

/-- C8: needs-authenticated-fetch classification is true exactly for
hosts on the fixed content-domain allow-list — in particular true for
lh3.googleusercontent.com and contribution.usercontent.google.com and
false for other.example.com — and it is a pure, deterministic function
of the URL: identical urls give identical results. -/
theorem claim_C8_needs_authenticated_fetch :
    needs_browser_download "https://lh3.googleusercontent.com/abc" = true ∧
    needs_browser_download "https://contribution.usercontent.google.com/xyz" = true ∧
    needs_browser_download "https://other.example.com/file.mp4" = false ∧
    (∀ u₁ u₂ : String, u₁ = u₂ → needs_browser_download u₁ = needs_browser_download u₂) ∧
    (∀ url : String, needs_browser_download url = true ↔ isContentHost (hostOf url) = true) := by
  refine ⟨by decide, by decide, by decide, ?_, ?_⟩
  · intro u₁ u₂ h
    rw [h]
  · intro url
    exact Iff.rfl

/-- Witness for C8 at two identical concrete urls. -/
theorem claim_C8_needs_authenticated_fetch_witness :
    needs_browser_download "https://lh3.googleusercontent.com/abc"
      = needs_browser_download "https://lh3.googleusercontent.com/abc" :=
  (claim_C8_needs_authenticated_fetch).2.2.2.1
    "https://lh3.googleusercontent.com/abc" "https://lh3.googleusercontent.com/abc" rfl

/-- C10: share_audio with an explicit artifact_id issues exactly one
RPC — the share request, never the artifact-listing RPC — and the
returned result's artifact_id is the id that was passed in. -/
theorem claim_C10_share_audio_explicit_id (listResp : Value) (nb a : String) (pub : Bool) :
    (share_audio listResp nb (some a) pub).2 = [⟨"share", shareParams nb (some a) pub⟩] ∧
    (share_audio listResp nb (some a) pub).1.artifact_id = some a ∧
    (∀ c ∈ (share_audio listResp nb (some a) pub).2, c.method ≠ "list_artifacts") := by
  refine ⟨rfl, rfl, ?_⟩
  intro c hc
  have hcalls : (share_audio listResp nb (some a) pub).2 =
      [⟨"share", shareParams nb (some a) pub⟩] := rfl
  rw [hcalls, List.mem_singleton] at hc
  rw [hc]
  show ("share" : String) ≠ "list_artifacts"
  decide

/-- Witness for C10 at concrete inputs (the unit-test scenario). -/
theorem claim_C10_share_audio_explicit_id_witness :
    (share_audio (Value.arr []) "nb_123" (some "my_audio") true).2.length = 1 ∧
    (share_audio (Value.arr []) "nb_123" (some "my_audio") true).1.artifact_id
      = some "my_audio" :=
  ⟨by
    rw [(claim_C10_share_audio_explicit_id (Value.arr []) "nb_123" "my_audio" true).1]
    rfl,
   (claim_C10_share_audio_explicit_id (Value.arr []) "nb_123" "my_audio" true).2.1⟩

/-- C2 counterexample: share_video with artifact_id omitted on the
listing response `[[]]` — which contains no completed video artifact —
does not fail with a not-found error: it returns a share result (with
artifact_id none), exactly as the repository's own unit test
test_share_video_no_video_found asserts, refuting the claimed
NotFoundError. -/
theorem claim_C2_counterexample :
    share_video (.arr [.arr []]) "nb_123" none true =
      (⟨true, none, some "https://notebooklm.google.com/notebook/nb_123"⟩,
       [⟨"list_artifacts", .arr [.str "nb_123"]⟩,
        ⟨"share", .arr [.arr [.int 1], .str "nb_123"]⟩]) := rfl

/-- C2 (amended): share_video with artifact_id omitted resolves the id
by issuing the listing RPC and taking the first completed video
artifact; when the listing contains no completed video artifact it does
not fail — it delegates to share with artifact_id none and returns a
share result whose artifact_id is none, having issued the listing RPC
and then the share RPC. -/
theorem claim_C2_share_video_no_video (resp : Value) (nb : String) (pub : Bool)
    (h : firstCompletedOfKind .video (resp.getIdx 0).asArrD = none) :
    share_video resp nb none pub =
      (⟨pub, none, if pub then some (shareUrlOf nb none) else none⟩,
       [⟨"list_artifacts", .arr [.str nb]⟩, ⟨"share", shareParams nb none pub⟩]) := by
  show shareKind .video resp nb none pub = _
  simp only [shareKind, share, h, Option.map_none']

/-- Witness for the amended C2 at the unit test's empty listing. -/
theorem claim_C2_share_video_no_video_witness :
    firstCompletedOfKind .video ((Value.arr [Value.arr []]).getIdx 0).asArrD = none ∧
    share_video (.arr [.arr []]) "nb_1" none false =
      (⟨false, none, none⟩,
       [⟨"list_artifacts", .arr [.str "nb_1"]⟩, ⟨"share", shareParams "nb_1" none false⟩]) :=
  ⟨rfl, claim_C2_share_video_no_video (.arr [.arr []]) "nb_1" false rfl⟩

/-- C3: when the artifacts decoded from a listing contain none whose id
is the explicitly requested x, lookup-by-id fails with a not-found
error whose message mentions x, and download called with artifact_id x
fails with that same not-found error. -/
theorem claim_C3_lookup_by_id_not_found (k : ArtifactKind) (raws : List Value)
    (x : String) (arts : List Artifact)
    (hdec : decodeListed k raws = .ok arts)
    (hx : ∀ a ∈ arts, a.id ≠ x) :
    ∃ pre post,
      findArtifact k (some x) raws = .error (.notFound (pre ++ x ++ post)) ∧
      downloadUrlOfKind k (.arr [.arr raws]) (some x) =
        .error (.notFound (pre ++ x ++ post)) := by
  have hnone : (arts.filter Artifact.isCompleted).find? (fun a => a.id == x) = none := by
    rw [List.find?_eq_none]
    intro a ha hpa
    exact hx a (List.mem_of_mem_filter ha) (beq_iff_eq.mp hpa)
  have hred : findArtifact k (some x) raws =
      (match (arts.filter Artifact.isCompleted).find? (fun a => a.id == x) with
       | some a => .ok a
       | none => .error (.notFound (kindLabel k ++ " artifact " ++ x ++ " not found"))) := by
    unfold findArtifact
    rw [hdec]
  have hfind : findArtifact k (some x) raws =
      .error (.notFound (kindLabel k ++ " artifact " ++ x ++ " not found")) := by
    rw [hred, hnone]
  refine ⟨kindLabel k ++ " artifact ", " not found", ?_, ?_⟩
  · rw [hfind]
  · have hrw : ((Value.arr [Value.arr raws]).getIdx 0).asArrD = raws := rfl
    unfold downloadUrlOfKind
    rw [hrw, hfind]

/-- Witness for C3 at the unit-test scenario: a listing with one
completed audio artifact other_id, looked up with id audio_001. -/
theorem claim_C3_lookup_by_id_not_found_witness :
    decodeListed .audio
        [.arr [.str "other_id", .str "Audio", .int 1, .null, .int 3, .null,
          .arr [.null, .null, .null, .null, .null, .null]]]
      = .ok [⟨"other_id", some "Audio", .audio, .completed, []⟩] ∧
    (∀ a ∈ [(⟨"other_id", some "Audio", .audio, .completed, []⟩ : Artifact)],
      a.id ≠ "audio_001") ∧
    (∃ pre post,
      findArtifact .audio (some "audio_001")
          [.arr [.str "other_id", .str "Audio", .int 1, .null, .int 3, .null,
            .arr [.null, .null, .null, .null, .null, .null]]]
        = .error (.notFound (pre ++ "audio_001" ++ post)) ∧
      downloadUrlOfKind .audio
          (.arr [.arr [.arr [.str "other_id", .str "Audio", .int 1, .null, .int 3, .null,
            .arr [.null, .null, .null, .null, .null, .null]]]])
          (some "audio_001")
        = .error (.notFound (pre ++ "audio_001" ++ post))) :=
  ⟨rfl, by decide,
   claim_C3_lookup_by_id_not_found .audio
     [.arr [.str "other_id", .str "Audio", .int 1, .null, .int 3, .null,
       .arr [.null, .null, .null, .null, .null, .null]]]
     "audio_001" [⟨"other_id", some "Audio", .audio, .completed, []⟩] rfl (by decide)⟩

/-- The backoff interval sequence stays within `[0, max_interval]` when
the initial interval does (`0 ≤ i0 ≤ maxI`). -/
theorem intervalSeq_bounds (maxI i0 : ℚ) (h0 : 0 ≤ i0) (h1 : i0 ≤ maxI) :
    ∀ n, 0 ≤ intervalSeq maxI i0 n ∧ intervalSeq maxI i0 n ≤ maxI := by
  intro n
  induction n with
  | zero => exact ⟨h0, h1⟩
  | succ n ih =>
    refine ⟨le_min ?_ (h0.trans h1), min_le_right _ _⟩
    exact mul_nonneg ih.1 (by norm_num [growthFactor])

/-- C9: with `0 ≤ initial_interval ≤ max_interval`, the backoff
intervals across successive poll iterations (each step being
`interval = min(interval * growth_factor, max_interval)`) are
monotonically non-decreasing and all bounded by max_interval, and once
the elapsed time has reached the timeout budget the wait loop fails
with the timed-out outcome, which is distinct from every FAILED
outcome. -/
theorem claim_C9_poller_backoff (maxI i0 tmo : ℚ) (h0 : 0 ≤ i0) (h1 : i0 ≤ maxI)
    (status : Nat → PollStatus) (fuel n : Nat) (elapsed interval : ℚ)
    (ht : tmo ≤ elapsed) :
    (∀ m, intervalSeq maxI i0 m ≤ intervalSeq maxI i0 (m + 1)) ∧
    (∀ m, intervalSeq maxI i0 m ≤ maxI) ∧
    wait_for_completion status maxI tmo (fuel + 1) n elapsed interval = .timedOut ∧
    (∀ msg, WaitOutcome.timedOut ≠ WaitOutcome.failed msg) := by
  refine ⟨?_, fun m => (intervalSeq_bounds maxI i0 h0 h1 m).2, ?_, ?_⟩
  · intro m
    have hb := intervalSeq_bounds maxI i0 h0 h1 m
    show intervalSeq maxI i0 m ≤ min (intervalSeq maxI i0 m * growthFactor) maxI
    refine le_min ?_ hb.2
    exact le_mul_of_one_le_right hb.1 (by norm_num [growthFactor])
  · unfold wait_for_completion
    rw [if_pos ht]
  · intro msg h
    cases h

/-- Witness for C9 at the podcast example's configuration: initial
interval 5, max interval 15, timeout 600, polled at elapsed 600. -/
theorem claim_C9_poller_backoff_witness :
    (0 : ℚ) ≤ 5 ∧ (5 : ℚ) ≤ 15 ∧ (600 : ℚ) ≤ 600 ∧
    ((∀ m, intervalSeq 15 5 m ≤ intervalSeq 15 5 (m + 1)) ∧
     (∀ m, intervalSeq 15 5 m ≤ 15) ∧
     wait_for_completion (fun _ => .pending) 15 600 1 0 600 5 = .timedOut ∧
     (∀ msg, WaitOutcome.timedOut ≠ WaitOutcome.failed msg)) :=
  ⟨by norm_num, by norm_num, le_rfl,
   claim_C9_poller_backoff 15 5 600 (by norm_num) (by norm_num)
     (fun _ => .pending) 0 0 600 5 le_rfl⟩

end NotebookLM
